import Mathlib

/-!
Shallow embedding of the VNC connection core of the Veyon repository
(file VncConnection.cpp) together with proofs about the claims of the
specification.  Qt/libvncclient library types that the code manipulates
(QSize, QImage, rfbClient and its pixel format, the control-flag bitset)
are modelled as plain Lean structures; external effects (Qt signals,
protocol sends) are modelled as explicit action lists returned by the
translated functions.
-/

namespace Veyon

/-- Connection state of a VncConnection (enum State in the source). -/
inductive State where
  | Disconnected
  | Connecting
  | Connected
  | HostOffline
  | ServerNotRunning
  | AuthenticationFailed
  | ConnectionFailed
deriving DecidableEq

/-- Framebuffer state of a VncConnection (enum FramebufferState in the source). -/
inductive FramebufferState where
  | Invalid
  | Initialized
  | Valid
deriving DecidableEq

/-- Quality levels selectable by the user (enum Quality in the source). -/
inductive Quality where
  | Highest
  | High
  | Medium
  | Low
  | Lowest
deriving DecidableEq

/-- Model of QSize: a pair of signed dimensions. -/
structure QSize where
  w : Int
  h : Int
deriving DecidableEq

/-- Qt semantics: a QSize is null when both dimensions are zero. -/
def QSize.isNull (s : QSize) : Bool :=
  s.w = 0 && s.h = 0

/-- Qt semantics: a QSize is empty when either dimension is at most zero. -/
def QSize.isEmpty (s : QSize) : Bool :=
  s.w ≤ 0 || s.h ≤ 0

/-- Qt semantics: a QSize is valid when both dimensions are at least zero. -/
def QSize.isValid (s : QSize) : Bool :=
  0 ≤ s.w && 0 ≤ s.h

/-- Transformation modes of QImage.scaled (Qt::FastTransformation and
Qt::SmoothTransformation). -/
inductive TransformMode where
  | FastTransformation
  | SmoothTransformation
deriving DecidableEq

/-- Model of QImage, tracking provenance of the pixel data: the null image,
an image wrapping an allocated framebuffer of given dimensions, or the
result of a scaling operation on a source image. -/
inductive QImage where
  | nullImage
  | fromFramebuffer (w h : Nat)
  | scaledOf (src : QImage) (w h : Nat) (mode : TransformMode)
deriving DecidableEq

/-- Size of a QImage: the null image has size zero. -/
def QImage.size : QImage → QSize
  | .nullImage => ⟨0, 0⟩
  | .fromFramebuffer w h => ⟨(w : Int), (h : Int)⟩
  | .scaledOf _ w h _ => ⟨(w : Int), (h : Int)⟩

/-- Qt semantics: a QImage is null when it holds no pixel data, in
particular when either dimension is zero. -/
def QImage.isNull : QImage → Bool
  | .nullImage => true
  | .fromFramebuffer w h => w = 0 || h = 0
  | .scaledOf _ w h _ => w = 0 || h = 0

/-- Model of QImage.scaled at aspect-ratio mode Qt::IgnoreAspectRatio, the
only mode the source ever passes: scaling to an empty size, or scaling a
null image, yields the null image; otherwise the result is an image of
exactly the requested size derived from the source image. -/
def QImage.scaled (img : QImage) (s : QSize) (mode : TransformMode) : QImage :=
  if s.isEmpty || img.isNull then .nullImage
  else .scaledOf img s.w.toNat s.h.toNat mode

/-- Qt signals emitted by VncConnection, recorded as explicit values. -/
inductive VncSignal where
  | connectionPrepared
  | stateChanged
  | framebufferSizeChanged (w h : Nat)
  | imageUpdated (x y w h : Int)
  | framebufferUpdateComplete
  | cursorPosChanged (x y : Int)
  | cursorShapeUpdated (xh yh : Int)
  | gotCut (text : String)
deriving DecidableEq

/-- Pixel format fields of the rfbClient structure that the source touches. -/
structure RfbPixelFormat where
  bitsPerPixel : Nat
  redShift : Nat
  greenShift : Nat
  blueShift : Nat
  redMax : Nat
  greenMax : Nat
  blueMax : Nat
deriving DecidableEq

/-- Application-data fields of the rfbClient structure that the source touches. -/
structure RfbAppData where
  useRemoteCursor : Bool
  useBGR233 : Bool
  encodingsString : String
  compressLevel : Int
  qualityLevel : Int
  enableJPEG : Bool
deriving DecidableEq

/-- The rfbClient structure as far as the core manipulates it.  The
framebuffer is the pixel array (one entry per 32-bit pixel). -/
structure RfbClient where
  width : Nat
  height : Nat
  format : RfbPixelFormat
  appData : RfbAppData
  frameBuffer : List Nat
deriving DecidableEq

/-- Modelled from the spec: the constant RfbBitsPerSample from the missing
header VncConnection.h; the expected layout is 32-bit with 8 bits per
sample. -/
def RfbBitsPerSample : Nat := 8

/-- Modelled from the spec: the constant RfbBytesPerPixel from the missing
header VncConnection.h; the expected layout is 4 bytes per pixel. -/
def RfbBytesPerPixel : Nat := 4

/-- Outbound protocol events held in the event queue (VncEvents.h). -/
inductive VncEvent where
  | pointerEvent (x y buttonMask : Int)
  | keyEvent (keysym : Nat) (pressed : Bool)
  | clientCutEvent (text : String)
  | updateFormatAndEncodingsEvent
deriving DecidableEq

/-- The cross-thread control flags of VncConnection (enum ControlFlag).
The source stores them as a bitwise-OR of integer flag values inside one
atomic integer; since the header defining the bit values is not part of
the sources, the bitset is modelled as one boolean per flag. -/
structure ControlFlags where
  terminateThread : Bool
  restartConnection : Bool
  triggerFramebufferUpdate : Bool
  scaledFramebufferNeedsUpdate : Bool
  serverReachable : Bool
  skipHostPing : Bool
  requiresManualUpdateRateControl : Bool
  deleteAfterFinished : Bool
deriving DecidableEq

/-- Names of the individual control flags. -/
inductive ControlFlag where
  | TerminateThread
  | RestartConnection
  | TriggerFramebufferUpdate
  | ScaledFramebufferNeedsUpdate
  | ServerReachable
  | SkipHostPing
  | RequiresManualUpdateRateControl
  | DeleteAfterFinished
deriving DecidableEq

/-- Set or clear one control flag (VncConnection::setControlFlag). -/
def ControlFlags.set (fs : ControlFlags) (f : ControlFlag) (b : Bool) : ControlFlags :=
  match f with
  | .TerminateThread => { fs with terminateThread := b }
  | .RestartConnection => { fs with restartConnection := b }
  | .TriggerFramebufferUpdate => { fs with triggerFramebufferUpdate := b }
  | .ScaledFramebufferNeedsUpdate => { fs with scaledFramebufferNeedsUpdate := b }
  | .ServerReachable => { fs with serverReachable := b }
  | .SkipHostPing => { fs with skipHostPing := b }
  | .RequiresManualUpdateRateControl => { fs with requiresManualUpdateRateControl := b }
  | .DeleteAfterFinished => { fs with deleteAfterFinished := b }

/-- Read one control flag (VncConnection::isControlFlagSet). -/
def ControlFlags.isSet (fs : ControlFlags) (f : ControlFlag) : Bool :=
  match f with
  | .TerminateThread => fs.terminateThread
  | .RestartConnection => fs.restartConnection
  | .TriggerFramebufferUpdate => fs.triggerFramebufferUpdate
  | .ScaledFramebufferNeedsUpdate => fs.scaledFramebufferNeedsUpdate
  | .ServerReachable => fs.serverReachable
  | .SkipHostPing => fs.skipHostPing
  | .RequiresManualUpdateRateControl => fs.requiresManualUpdateRateControl
  | .DeleteAfterFinished => fs.deleteAfterFinished

/-- The mutable state of a VncConnection object, as far as the claims
reach: connection and framebuffer state, control flags, the codec client
handle (none when the source pointer is null), configuration fields,
images, the watchdog (abstracted as elapsed milliseconds since its last
restart), the event queue and a counter of sleeper wake-ups. -/
structure VncState where
  state : State
  framebufferState : FramebufferState
  controlFlags : ControlFlags
  client : Option RfbClient
  quality : Quality
  useRemoteCursor : Bool
  host : String
  port : Int
  defaultPort : Int
  scaledSize : QSize
  image : QImage
  scaledFramebuffer : QImage
  framebufferUpdateInterval : Int
  messageWaitTimeout : Int
  framebufferUpdateWatchdogTimeout : Int
  watchdogElapsed : Int
  eventQueue : List VncEvent
  wakeCount : Nat
deriving DecidableEq

/-- Abstract syntax of the regular-expression fragment used by
VncConnection::setHost: single-character tests (literals, classes and the
dot), sequencing, one-or-more repetition (greedy or, under the
inverted-greediness option, reluctant) and numbered capture groups. -/
inductive RE where
  | emp
  | ch (p : Char → Bool)
  | seq (a b : RE)
  | plus (reluctant : Bool) (p : Char → Bool)
  | grp (i : Nat) (r : RE)

/-- Captured substrings of a regular-expression match; the patterns of
setHost use at most two groups.  QRegularExpressionMatch.captured yields
the empty string for a group absent from the pattern. -/
structure Caps where
  cap1 : List Char
  cap2 : List Char
deriving DecidableEq

/-- Store the text captured by group number i. -/
def Caps.setCap (c : Caps) (i : Nat) (v : List Char) : Caps :=
  if i = 1 then { c with cap1 := v }
  else if i = 2 then { c with cap2 := v } else c

/-- Size of a regular expression, used to bound the matcher fuel. -/
def RE.size : RE → Nat
  | .emp => 1
  | .ch _ => 1
  | .seq a b => a.size + b.size + 1
  | .plus _ _ => 1
  | .grp _ r => r.size + 1

mutual

/-- Backtracking matcher in continuation-passing style with PCRE priority
order: alternatives are tried in the order a backtracking engine tries
them, so the first successful continuation fixes the captures.  Fuel only
guarantees termination; it is chosen large enough in reFullMatch. -/
def reRun : Nat → RE → List Char → Caps → (List Char → Caps → Option Caps) → Option Caps
  | 0, _, _, _, _ => none
  | _ + 1, .emp, s, caps, k => k s caps
  | _ + 1, .ch p, s, caps, k =>
    match s with
    | [] => none
    | c :: rest => if p c then k rest caps else none
  | fuel + 1, .seq a b, s, caps, k =>
    reRun fuel a s caps (fun s2 caps2 => reRun fuel b s2 caps2 k)
  | fuel + 1, .plus rel p, s, caps, k =>
    match s with
    | [] => none
    | c :: rest => if p c then reStar fuel rel p rest caps k else none
  | fuel + 1, .grp i r, s, caps, k =>
    reRun fuel r s caps
      (fun s2 caps2 => k s2 (caps2.setCap i (s.take (s.length - s2.length))))

/-- Zero-or-more repetition of a character class, greedy (longest first)
or reluctant (shortest first). -/
def reStar : Nat → Bool → (Char → Bool) → List Char → Caps →
    (List Char → Caps → Option Caps) → Option Caps
  | 0, _, _, _, _, _ => none
  | fuel + 1, rel, p, s, caps, k =>
    let more : Option Caps :=
      match s with
      | [] => none
      | c :: rest => if p c then reStar fuel rel p rest caps k else none
    if rel then (k s caps).orElse (fun _ => more)
    else more.orElse (fun _ => k s caps)

end

/-- Anchored match of a whole string (the setHost patterns all carry both
anchors), with fuel ample for the matcher call depth. -/
def reFullMatch (r : RE) (s : String) : Option Caps :=
  reRun ((r.size + 2) * (s.length + 2)) r s.data ⟨[], []⟩
    (fun rest caps => if rest.isEmpty then some caps else none)

/-- Character class of the regex escape for a decimal digit. -/
def isAsciiDigit (c : Char) : Bool := '0' ≤ c && c ≤ '9'

/-- Character class [0-9a-fA-F:] of the IPv6 patterns. -/
def isHexOrColon (c : Char) : Bool :=
  isAsciiDigit c || ('a' ≤ c && c ≤ 'f') || ('A' ≤ c && c ≤ 'F') || c == ':'

/-- Character class [^:] of the generic host:port pattern. -/
def isNonColon (c : Char) : Bool := c != ':'

/-- The regex dot: any character except a newline. -/
def isDotAny (c : Char) : Bool := c != '\n'

/-- Character class [fF]. -/
def isFF (c : Char) : Bool := c == 'f' || c == 'F'

/-- A literal character of a pattern. -/
def reLit (c : Char) : RE := .ch (fun x => x == c)

/-- Sequence of pattern elements. -/
def reSeqList (l : List RE) : RE := l.foldr .seq .emp

/-- The subpattern for a dotted IPv4 address in the setHost patterns.
The source patterns spell it with unescaped dots, so each separator
matches any character. -/
def dottedQuad : RE :=
  reSeqList [.plus false isAsciiDigit, .ch isDotAny, .plus false isAsciiDigit, .ch isDotAny,
    .plus false isAsciiDigit, .ch isDotAny, .plus false isAsciiDigit]

/-- The four-fold [fF] run of the IPv4-mapped IPv6 prefix. -/
def ffffRun : List RE := [.ch isFF, .ch isFF, .ch isFF, .ch isFF]

/-- First setHost pattern: IPv4-mapped IPv6 address without port. -/
def hostPattern1 : RE :=
  reSeqList ([reLit ':', reLit ':'] ++ ffffRun ++ [reLit ':', .grp 1 dottedQuad])

/-- Second setHost pattern: IPv4-mapped IPv6 address with trailing port. -/
def hostPattern2 : RE :=
  reSeqList ([reLit ':', reLit ':'] ++ ffffRun ++
    [reLit ':', .grp 1 dottedQuad, reLit ':', .grp 2 (.plus false isAsciiDigit)])

/-- Third setHost pattern: bracketed IPv4-mapped IPv6 address with port. -/
def hostPattern3 : RE :=
  reSeqList ([reLit '[', reLit ':', reLit ':'] ++ ffffRun ++
    [reLit ':', .grp 1 dottedQuad, reLit ']', reLit ':', .grp 2 (.plus false isAsciiDigit)])

/-- Fourth setHost pattern: any bracketed IPv6 address with port. -/
def hostPattern4 : RE :=
  reSeqList [reLit '[', .grp 1 (.plus false isHexOrColon), reLit ']', reLit ':',
    .grp 2 (.plus false isAsciiDigit)]

/-- Fifth setHost pattern: irregular IPv6 address plus a port of at least
five digits, compiled with the inverted-greediness option, hence the
reluctant repetition. -/
def hostPattern5 : RE :=
  reSeqList [.grp 1 (.plus true isHexOrColon), reLit ':',
    .grp 2 (reSeqList [.ch isAsciiDigit, .ch isAsciiDigit, .ch isAsciiDigit,
      .ch isAsciiDigit, .ch isAsciiDigit])]

/-- Sixth setHost pattern: any other notation with a trailing port. -/
def hostPattern6 : RE :=
  reSeqList [.grp 1 (.plus false isNonColon), reLit ':', .grp 2 (.plus false isAsciiDigit)]

/-- The pattern cascade of VncConnection::setHost: the six patterns are
tried in order and the first full match wins. -/
def matchHostPatterns (s : String) : Option Caps :=
  (reFullMatch hostPattern1 s).orElse fun _ =>
  (reFullMatch hostPattern2 s).orElse fun _ =>
  (reFullMatch hostPattern3 s).orElse fun _ =>
  (reFullMatch hostPattern4 s).orElse fun _ =>
  (reFullMatch hostPattern5 s).orElse fun _ =>
  reFullMatch hostPattern6 s

/-- QString::toInt on the captured digit strings: value of a non-empty
all-digit string fitting a 32-bit signed int, and 0 on any failure. -/
def qstringToInt (s : String) : Int :=
  if !s.data.isEmpty && s.data.all isAsciiDigit then
    let v : Nat := s.data.foldl (fun acc c => acc * 10 + (c.toNat - 48)) 0
    if v ≤ 2147483647 then (v : Int) else 0
  else 0

namespace VncConnection

/-- VncConnection::setControlFlag lifted to the whole state. -/
def setControlFlag (f : ControlFlag) (b : Bool) (st : VncState) : VncState :=
  { st with controlFlags := st.controlFlags.set f b }

/-- VncConnection::isControlFlagSet lifted to the whole state. -/
def isControlFlagSet (f : ControlFlag) (st : VncState) : Bool :=
  st.controlFlags.isSet f

/-- VncConnection::setHost: stores the raw host string, matches it
against the six patterns in order, and on a match overwrites the host
with the first capture when that capture is non-empty and the port with
the numeric value of the second capture when that value is positive. -/
def setHost (host : String) (st : VncState) : VncState :=
  let st1 := { st with host := host }
  match matchHostPatterns st1.host with
  | none => st1
  | some caps =>
    let matchedHost := String.mk caps.cap1
    let st2 := if matchedHost.isEmpty then st1 else { st1 with host := matchedHost }
    let port := qstringToInt (String.mk caps.cap2)
    if port > 0 then { st2 with port := port } else st2

/-- VncConnection::setPort: stores the port when it is non-negative. -/
def setPort (port : Int) (st : VncState) : VncState :=
  if port ≥ 0 then { st with port := port } else st

/-- VncConnection::updateEncodingSettingsFromQuality: pure update of the
encoding-related appData fields from the quality level. -/
def updateEncodingSettingsFromQuality (q : Quality) (a : RfbAppData) : RfbAppData :=
  { a with
    encodingsString :=
      if q = Quality.Highest then "zrle ultra copyrect hextile zlib corre rre raw"
      else "tight zywrle zrle ultra"
    compressLevel := 9
    qualityLevel :=
      match q with
      | .Highest => 9
      | .High => 7
      | .Medium => 5
      | .Low => 3
      | .Lowest => 0
    enableJPEG := if q = Quality.Highest then false else true }

/-- Failure classification taken from the else-branch of
VncConnection::establishConnection (the branch entered when rfbInitClient
failed): the ServerReachable flag, the SkipHostPing flag, the result of
the host ping (an external oracle, only consulted when SkipHostPing is
clear) and the framebuffer state determine the failure state. -/
def establishFailureState (serverReachable skipHostPing pingResult : Bool)
    (fbState : FramebufferState) : State :=
  if serverReachable = false then
    if skipHostPing || !pingResult then State.HostOffline
    else State.ServerNotRunning
  else if fbState = FramebufferState.Invalid then State.AuthenticationFailed
  else State.ConnectionFailed

/-- Modelled from the spec: VncConnection::hasValidFramebuffer is declared
in the header, which is not among the sources; per the spec the
framebuffer state is Valid after the first complete update, so the
predicate tests for state Valid. -/
def hasValidFramebuffer (st : VncState) : Bool :=
  st.framebufferState = FramebufferState.Valid

/-- VncConnection::rescaleFramebuffer: with no valid framebuffer or a
null scaled size the stored scaled framebuffer is reset to the empty
image; with the scaled-dirty flag clear, or an invalid framebuffer image
size, nothing happens; otherwise the scaled copy is produced with smooth
resampling (the source passes Qt::IgnoreAspectRatio) and the dirty flag
is cleared. -/
def rescaleFramebuffer (st : VncState) : VncState :=
  if hasValidFramebuffer st = false || st.scaledSize.isNull then
    { st with scaledFramebuffer := QImage.nullImage }
  else if isControlFlagSet ControlFlag.ScaledFramebufferNeedsUpdate st = false then st
  else if st.image.size.isValid = false then st
  else
    setControlFlag ControlFlag.ScaledFramebufferNeedsUpdate false
      { st with scaledFramebuffer := st.image.scaled st.scaledSize TransformMode.SmoothTransformation }

/-- VncConnection::scaledFramebuffer: rescale on demand, then return the
stored scaled framebuffer. -/
def scaledFramebuffer (st : VncState) : QImage × VncState :=
  let st1 := rescaleFramebuffer st
  (st1.scaledFramebuffer, st1)

/-- VncConnection::setScaledSize: store the size and mark the scaled
framebuffer dirty when the size actually changes. -/
def setScaledSize (s : QSize) (st : VncState) : VncState :=
  if st.scaledSize ≠ s then
    setControlFlag ControlFlag.ScaledFramebufferNeedsUpdate true { st with scaledSize := s }
  else st

/-- VncConnection::setFramebufferUpdateInterval: store the interval, set
the trigger flag when the stored interval is non-positive, and wake the
sleeper. -/
def setFramebufferUpdateInterval (interval : Int) (st : VncState) : VncState :=
  let st1 := { st with framebufferUpdateInterval := interval }
  let st2 :=
    if st1.framebufferUpdateInterval ≤ 0 then
      setControlFlag ControlFlag.TriggerFramebufferUpdate true st1
    else st1
  { st2 with wakeCount := st2.wakeCount + 1 }

/-- VncConnection::enqueueEvent: drop the event silently unless the
connection state is Connected; otherwise append it to the queue and wake
the sleeper. -/
def enqueueEvent (e : VncEvent) (st : VncState) : VncState :=
  if st.state ≠ State.Connected then st
  else { st with eventQueue := st.eventQueue ++ [e], wakeCount := st.wakeCount + 1 }

/-- VncConnection::mouseEvent: enqueue a pointer event. -/
def mouseEvent (x y buttonMask : Int) (st : VncState) : VncState :=
  enqueueEvent (VncEvent.pointerEvent x y buttonMask) st

/-- VncConnection::keyEvent: enqueue a key event. -/
def keyEvent (key : Nat) (pressed : Bool) (st : VncState) : VncState :=
  enqueueEvent (VncEvent.keyEvent key pressed) st

/-- VncConnection::clientCut: enqueue a client-cut event. -/
def clientCut (text : String) (st : VncState) : VncState :=
  enqueueEvent (VncEvent.clientCutEvent text) st

/-- VncConnection::setQuality: store the quality and, when a codec client
exists, refresh its encoding settings and enqueue a
format-and-encodings-update event. -/
def setQuality (q : Quality) (st : VncState) : VncState :=
  let st1 := { st with quality := q }
  match st1.client with
  | some cl =>
    enqueueEvent VncEvent.updateFormatAndEncodingsEvent
      { st1 with client := some { cl with appData := updateEncodingSettingsFromQuality q cl.appData } }
  | none => st1

/-- VncConnection::setUseRemoteCursor: store the preference and, when a
codec client exists, update its appData and enqueue a
format-and-encodings-update event. -/
def setUseRemoteCursor (b : Bool) (st : VncState) : VncState :=
  let st1 := { st with useRemoteCursor := b }
  match st1.client with
  | some cl =>
    enqueueEvent VncEvent.updateFormatAndEncodingsEvent
      { st1 with client := some { cl with appData := { cl.appData with useRemoteCursor := b } } }
  | none => st1

/-- VncConnection::initFrameBuffer, acting on the connection state and on
the rfbClient object the member pointer designates (the pixel-count
multiplication is carried out in a 32-bit unsigned): reject a pixel depth
other than the expected one, otherwise allocate and zero the pixel array,
wrap it in the framebuffer image, program the pixel format, apply the
cursor preference and quality profile, mark the framebuffer Initialized
and emit the size-changed signal. -/
def initFrameBuffer (st : VncState) (cl : RfbClient) : Bool × VncState × List VncSignal :=
  if cl.format.bitsPerPixel ≠ RfbBitsPerSample * RfbBytesPerPixel then
    (false, st, [])
  else
    let pixelCount := cl.width * cl.height % 2 ^ 32
    let cl1 := { cl with frameBuffer := List.replicate pixelCount 0 }
    let st1 := { st with image := QImage.fromFramebuffer cl1.width cl1.height }
    let cl2 := { cl1 with format := { cl1.format with
      redShift := 16, greenShift := 8, blueShift := 0,
      redMax := 0xff, greenMax := 0xff, blueMax := 0xff } }
    let appData3 := updateEncodingSettingsFromQuality st.quality
      { cl2.appData with useRemoteCursor := st.useRemoteCursor, useBGR233 := false }
    let cl3 := { cl2 with appData := appData3 }
    (true,
      { st1 with client := some cl3, framebufferState := FramebufferState.Initialized },
      [VncSignal.framebufferSizeChanged cl.width cl.height])

/-- VncConnection::finishFrameBufferUpdate: restart the watchdog, mark
the framebuffer Valid, mark the scaled framebuffer dirty, emit the
update-complete signal. -/
def finishFrameBufferUpdate (st : VncState) : VncState × List VncSignal :=
  ( setControlFlag ControlFlag.ScaledFramebufferNeedsUpdate true
      { st with watchdogElapsed := 0, framebufferState := FramebufferState.Valid },
    [VncSignal.framebufferUpdateComplete] )

/-- VncConnection::hookInitFrameBuffer: the codec callback for
framebuffer allocation.  The first argument is the content of the
per-client registration slot of the invoking client (none when the slot
is empty, for instance after stop nulled it); the callback proceeds only
when the slot holds a connection whose client pointer designates the
invoking client. -/
def hookInitFrameBuffer (slot : Option VncState) (cl : RfbClient) :
    Bool × Option VncState × List VncSignal :=
  match slot with
  | some conn =>
    if conn.client = some cl then
      let (ok, conn2, sigs) := initFrameBuffer conn cl
      (ok, some conn2, sigs)
    else (false, some conn, [])
  | none => (false, none, [])

/-- VncConnection::hookUpdateFB: the codec callback for an updated
region; it emits the image-updated signal whenever the registration slot
holds a connection. -/
def hookUpdateFB (slot : Option VncState) (_cl : RfbClient) (x y w h : Int) :
    Option VncState × List VncSignal :=
  match slot with
  | some conn => (some conn, [VncSignal.imageUpdated x y w h])
  | none => (none, [])

/-- VncConnection::hookFinishFrameBufferUpdate: the codec callback for a
completed update. -/
def hookFinishFrameBufferUpdate (slot : Option VncState) (_cl : RfbClient) :
    Option VncState × List VncSignal :=
  match slot with
  | some conn =>
    let (conn2, sigs) := finishFrameBufferUpdate conn
    (some conn2, sigs)
  | none => (none, [])

/-- VncConnection::hookHandleCursorPos: the codec callback for a cursor
move; it always reports success. -/
def hookHandleCursorPos (slot : Option VncState) (_cl : RfbClient) (x y : Int) :
    Bool × Option VncState × List VncSignal :=
  match slot with
  | some conn => (true, some conn, [VncSignal.cursorPosChanged x y])
  | none => (true, none, [])

/-- VncConnection::hookCursorShape: the codec callback for a new cursor
shape; shapes with a pixel encoding other than four bytes are rejected
before the slot is consulted. -/
def hookCursorShape (slot : Option VncState) (_cl : RfbClient) (xh yh _w _h bpp : Int) :
    Option VncState × List VncSignal :=
  if bpp ≠ 4 then (slot, [])
  else
    match slot with
    | some conn => (some conn, [VncSignal.cursorShapeUpdated xh yh])
    | none => (none, [])

/-- VncConnection::hookCutText: the codec callback for server cut text;
the signal is emitted only for a connection in the slot and non-empty
text. -/
def hookCutText (slot : Option VncState) (_cl : RfbClient) (text : String) :
    Option VncState × List VncSignal :=
  match slot with
  | some conn =>
    if text.isEmpty = false then (some conn, [VncSignal.gotCut text])
    else (some conn, [])
  | none => (none, [])

/-- Observable actions of one iteration of the connected message pump:
the initial message wait, the drain of pending server messages, the two
kinds of framebuffer update requests, the manual-rate-control sleep and
the firing of queued events. -/
inductive PumpAction where
  | waitedForMessage (timeout : Int)
  | handledMessages
  | framebufferUpdateRequest (x y w h : Nat) (incremental : Bool)
  | incrementalFramebufferUpdateRequest
  | sleptFor (t : Int)
  | firedEvent (e : VncEvent)
deriving DecidableEq

/-- Whether a pump action is a framebuffer update request of either kind. -/
def isUpdateRequestAction : PumpAction → Bool
  | .framebufferUpdateRequest _ _ _ _ _ => true
  | .incrementalFramebufferUpdateRequest => true
  | _ => false

/-- VncConnection::sendEvents: drain the event queue, firing each event
unless the terminate flag is set (events are destroyed either way). -/
def sendEvents (st : VncState) : VncState × List PumpAction :=
  ({ st with eventQueue := [] },
   if st.controlFlags.terminateThread then []
   else st.eventQueue.map PumpAction.firedEvent)

/-- Tail of a pump iteration after the update-request branch chain: the
manual-rate-control sleep (when time remains of the update interval, the
flag requires it and no terminate is pending) followed by sendEvents. -/
def finishIteration (st : VncState) (acts : List PumpAction) (loopElapsed : Int) :
    VncState × List PumpAction × Bool :=
  let remaining := st.framebufferUpdateInterval - loopElapsed
  let acts2 :=
    if remaining > 0 && st.controlFlags.requiresManualUpdateRateControl
        && !st.controlFlags.terminateThread then
      acts ++ [PumpAction.sleptFor remaining]
    else acts
  ((sendEvents st).1, acts2 ++ (sendEvents st).2, false)

/-- One iteration of the loop body of VncConnection::handleConnection.
External observations enter as oracles: waitResult is what WaitForMessage
returned, handledOkay whether the message drain succeeded, loopElapsed
the loop-timer reading at the sleep decision.  The boolean result records
whether the iteration breaks out of the pump loop. -/
def handleConnectionIteration (st : VncState) (cl : RfbClient) (waitResult : Int)
    (handledOkay : Bool) (loopElapsed : Int) : VncState × List PumpAction × Bool :=
  let timeout :=
    if st.framebufferUpdateInterval > 0 then st.messageWaitTimeout * 100
    else st.messageWaitTimeout
  let acts := [PumpAction.waitedForMessage timeout]
  if isControlFlagSet ControlFlag.TerminateThread st || waitResult < 0 then (st, acts, true)
  else if waitResult ≠ 0 then
    if handledOkay = false then (st, acts ++ [PumpAction.handledMessages], true)
    else finishIteration st (acts ++ [PumpAction.handledMessages]) loopElapsed
  else if st.watchdogElapsed ≥
      max (2 * st.framebufferUpdateInterval) st.framebufferUpdateWatchdogTimeout then
    finishIteration { st with watchdogElapsed := 0 }
      (acts ++ [PumpAction.framebufferUpdateRequest 0 0 cl.width cl.height false]) loopElapsed
  else if st.framebufferUpdateInterval > 0 ∧ st.watchdogElapsed > st.framebufferUpdateInterval then
    finishIteration { st with watchdogElapsed := 0 }
      (acts ++ [PumpAction.incrementalFramebufferUpdateRequest]) loopElapsed
  else if isControlFlagSet ControlFlag.TriggerFramebufferUpdate st then
    finishIteration (setControlFlag ControlFlag.TriggerFramebufferUpdate false st)
      (acts ++ [PumpAction.incrementalFramebufferUpdateRequest]) loopElapsed
  else finishIteration st acts loopElapsed

end VncConnection

/-- A concrete connection state for witnesses and counterexamples; the
numeric tunables carry arbitrary sample values. -/
def sampleState : VncState :=
  { state := State.Disconnected
    framebufferState := FramebufferState.Invalid
    controlFlags := ⟨false, false, false, false, false, false, false, false⟩
    client := none
    quality := Quality.High
    useRemoteCursor := false
    host := ""
    port := -1
    defaultPort := 11100
    scaledSize := ⟨-1, -1⟩
    image := QImage.nullImage
    scaledFramebuffer := QImage.nullImage
    framebufferUpdateInterval := 0
    messageWaitTimeout := 500
    framebufferUpdateWatchdogTimeout := 10000
    watchdogElapsed := 0
    eventQueue := []
    wakeCount := 0 }

/-- A concrete codec client for witnesses and counterexamples. -/
def sampleClient : RfbClient :=
  { width := 640
    height := 480
    format :=
      { bitsPerPixel := 32, redShift := 0, greenShift := 0, blueShift := 0,
        redMax := 0, greenMax := 0, blueMax := 0 }
    appData :=
      { useRemoteCursor := false, useBGR233 := false, encodingsString := "",
        compressLevel := 0, qualityLevel := 0, enableJPEG := false }
    frameBuffer := [] }

/-- A second codec client, distinct from sampleClient. -/
def otherClient : RfbClient :=
  { sampleClient with width := 800 }

/-- A codec client announcing a 16-bit pixel depth. -/
def badDepthClient : RfbClient :=
  { sampleClient with format := { sampleClient.format with bitsPerPixel := 16 } }

/-- A concrete state with a valid framebuffer backed by a 4 by 4 image. -/
def validFbSampleState : VncState :=
  { sampleState with framebufferState := FramebufferState.Valid, image := QImage.fromFramebuffer 4 4 }

/-- validFbSampleState with the scaled size already at 2 by 2 while the
scaled-dirty flag is clear and the stored scaled framebuffer is stale. -/
def staleScaledState : VncState :=
  { validFbSampleState with scaledSize := ⟨2, 2⟩ }

/-- A concrete state whose framebuffer-update watchdog has expired. -/
def watchdogExpiredState : VncState :=
  { sampleState with watchdogElapsed := 20000 }

end Veyon

namespace Veyon

/-- C4: for every quality level Q, applying the quality profile sets
compress-level 9, jpeg-enabled iff Q is not Highest, quality-level
9/7/5/3/0 respectively, and the encodings string is the lossless list for
Highest and the tight-first list otherwise. -/
theorem quality_profile_spec (a : RfbAppData) :
    (let r := VncConnection.updateEncodingSettingsFromQuality Quality.Highest a
     r.compressLevel = 9 ∧ r.enableJPEG = false ∧ r.qualityLevel = 9 ∧
       r.encodingsString = "zrle ultra copyrect hextile zlib corre rre raw") ∧
    (let r := VncConnection.updateEncodingSettingsFromQuality Quality.High a
     r.compressLevel = 9 ∧ r.enableJPEG = true ∧ r.qualityLevel = 7 ∧
       r.encodingsString = "tight zywrle zrle ultra") ∧
    (let r := VncConnection.updateEncodingSettingsFromQuality Quality.Medium a
     r.compressLevel = 9 ∧ r.enableJPEG = true ∧ r.qualityLevel = 5 ∧
       r.encodingsString = "tight zywrle zrle ultra") ∧
    (let r := VncConnection.updateEncodingSettingsFromQuality Quality.Low a
     r.compressLevel = 9 ∧ r.enableJPEG = true ∧ r.qualityLevel = 3 ∧
       r.encodingsString = "tight zywrle zrle ultra") ∧
    (let r := VncConnection.updateEncodingSettingsFromQuality Quality.Lowest a
     r.compressLevel = 9 ∧ r.enableJPEG = true ∧ r.qualityLevel = 0 ∧
       r.encodingsString = "tight zywrle zrle ultra") := by
  refine ⟨⟨rfl, rfl, rfl, rfl⟩, ⟨rfl, rfl, rfl, rfl⟩, ⟨rfl, rfl, rfl, rfl⟩,
    ⟨rfl, rfl, rfl, rfl⟩, ⟨rfl, rfl, rfl, rfl⟩⟩

/-- C7: the failure state of a failed connection attempt is classified in
this exact priority order: HostOffline when the Reachable flag never got
set and the ping is skipped or fails, ServerNotRunning when the Reachable
flag never got set but the ping succeeds, AuthenticationFailed when the
server was reachable but the framebuffer state is still Invalid, and
ConnectionFailed otherwise. -/
theorem establish_failure_classification
    (reachable skipPing pingResult : Bool) (fb : FramebufferState) :
    (VncConnection.establishFailureState reachable skipPing pingResult fb = State.HostOffline ↔
      reachable = false ∧ (skipPing = true ∨ pingResult = false)) ∧
    (VncConnection.establishFailureState reachable skipPing pingResult fb = State.ServerNotRunning ↔
      reachable = false ∧ skipPing = false ∧ pingResult = true) ∧
    (VncConnection.establishFailureState reachable skipPing pingResult fb = State.AuthenticationFailed ↔
      reachable = true ∧ fb = FramebufferState.Invalid) ∧
    (VncConnection.establishFailureState reachable skipPing pingResult fb = State.ConnectionFailed ↔
      reachable = true ∧ fb ≠ FramebufferState.Invalid) := by
  cases reachable <;> cases skipPing <;> cases pingResult <;> cases fb <;> decide

/-- Every image of the model has a valid (non-negative) size. -/
theorem QImage.size_isValid (img : QImage) : img.size.isValid = true := by
  cases img <;> simp [QImage.size, QSize.isValid]

/-- C1: setHost parses a user-entered host string per the priority-ordered
pattern list: a bracketed IPv6 address with port is split into host and
port, an IPv4-mapped IPv6 address with port yields the plain IPv4 address
and the port, and a bare host name is retained verbatim with the stored
port untouched. -/
theorem setHost_scenarios (st : VncState) :
    ((VncConnection.setHost "[2001:db8::1]:5901" st).host = "2001:db8::1" ∧
      (VncConnection.setHost "[2001:db8::1]:5901" st).port = 5901) ∧
    ((VncConnection.setHost "::ffff:10.0.0.5:5900" st).host = "10.0.0.5" ∧
      (VncConnection.setHost "::ffff:10.0.0.5:5900" st).port = 5900) ∧
    ((VncConnection.setHost "example.local" st).host = "example.local" ∧
      (VncConnection.setHost "example.local" st).port = st.port) :=
  ⟨⟨rfl, rfl⟩, ⟨rfl, rfl⟩, ⟨rfl, rfl⟩⟩

/-- C2 counterexample: with no valid framebuffer, rescaleFramebuffer is
not a no-op: it resets a previously stored non-empty scaled framebuffer
to the empty image. -/
theorem rescale_noop_counterexample :
    VncConnection.hasValidFramebuffer
      { sampleState with scaledFramebuffer := QImage.fromFramebuffer 1 1 } = false ∧
    VncConnection.rescaleFramebuffer
        { sampleState with scaledFramebuffer := QImage.fromFramebuffer 1 1 } ≠
      { sampleState with scaledFramebuffer := QImage.fromFramebuffer 1 1 } := by
  decide

/-- C2 (amended): when there is no valid framebuffer or the scaled size
is null, rescaleFramebuffer resets the stored scaled framebuffer to the
empty image and changes nothing else; otherwise it is a no-op when the
scaled-dirty flag is clear; otherwise (the framebuffer image size being
valid) it stores a scaled copy of the pixel buffer at the configured
scaled size with smooth resampling, aspect ignored, and clears the
scaled-dirty flag. -/
theorem rescale_branches (st : VncState) :
    ((VncConnection.hasValidFramebuffer st = false ∨ st.scaledSize.isNull = true) →
      VncConnection.rescaleFramebuffer st = { st with scaledFramebuffer := QImage.nullImage }) ∧
    (VncConnection.hasValidFramebuffer st = true → st.scaledSize.isNull = false →
      st.controlFlags.scaledFramebufferNeedsUpdate = false →
      VncConnection.rescaleFramebuffer st = st) ∧
    (VncConnection.hasValidFramebuffer st = true → st.scaledSize.isNull = false →
      st.controlFlags.scaledFramebufferNeedsUpdate = true →
      VncConnection.rescaleFramebuffer st =
        { st with
          scaledFramebuffer := st.image.scaled st.scaledSize TransformMode.SmoothTransformation,
          controlFlags := { st.controlFlags with scaledFramebufferNeedsUpdate := false } }) := by
  refine ⟨fun h => ?_, fun h1 h2 h3 => ?_, fun h1 h2 h3 => ?_⟩
  · rcases h with h | h <;>
      simp [VncConnection.rescaleFramebuffer, h]
  · simp [VncConnection.rescaleFramebuffer, VncConnection.isControlFlagSet,
      ControlFlags.isSet, h1, h2, h3]
  · simp [VncConnection.rescaleFramebuffer, VncConnection.isControlFlagSet,
      ControlFlags.isSet, VncConnection.setControlFlag, ControlFlags.set,
      h1, h2, h3, QImage.size_isValid st.image]

/-- Witness for the amended C2 theorem at a concrete state: a clear dirty
flag makes rescaleFramebuffer a no-op. -/
theorem rescale_branches_witness :
    VncConnection.rescaleFramebuffer
        { sampleState with framebufferState := FramebufferState.Valid, scaledSize := ⟨2, 2⟩ } =
      { sampleState with framebufferState := FramebufferState.Valid, scaledSize := ⟨2, 2⟩ } :=
  (rescale_branches _).2.1 (by decide) (by decide) (by decide)

/-- C3 counterexample: the update-region callback does not check that the
owner found in the registration slot matches the invoking client; with a
mismatched owner it still emits the image-updated signal. -/
theorem hook_mismatch_counterexample :
    ({ sampleState with client := some otherClient } : VncState).client ≠ some sampleClient ∧
    (VncConnection.hookUpdateFB
        (some { sampleState with client := some otherClient }) sampleClient 0 0 1 1).2 ≠ [] := by
  decide

/-- C3 (amended): only the init-framebuffer callback verifies that the
owner in the registration slot matches the invoking client, and is a
no-op returning false when the owner is missing or mismatched; the other
callbacks (update region, finish update, cursor position, cursor shape,
cut text) are no-ops exactly when the owner is missing, a mismatched
owner not being detected there. -/
theorem hook_missing_owner_noop (conn : VncState) (cl : RfbClient)
    (x y w h xh yh bpp : Int) (text : String) :
    (VncConnection.hookInitFrameBuffer none cl = (false, none, [])) ∧
    (conn.client ≠ some cl →
      VncConnection.hookInitFrameBuffer (some conn) cl = (false, some conn, [])) ∧
    (VncConnection.hookUpdateFB none cl x y w h = (none, [])) ∧
    (VncConnection.hookFinishFrameBufferUpdate none cl = (none, [])) ∧
    (VncConnection.hookHandleCursorPos none cl x y = (true, none, [])) ∧
    (VncConnection.hookCursorShape none cl xh yh w h bpp = (none, [])) ∧
    (VncConnection.hookCutText none cl text = (none, [])) := by
  refine ⟨rfl, fun hne => ?_, rfl, rfl, rfl, ?_, rfl⟩
  · simp [VncConnection.hookInitFrameBuffer, hne]
  · unfold VncConnection.hookCursorShape
    split <;> rfl

/-- Witness for the amended C3 theorem: the init-framebuffer callback at
a concrete mismatched owner. -/
theorem hook_missing_owner_noop_witness :
    VncConnection.hookInitFrameBuffer
        (some { sampleState with client := some otherClient }) sampleClient =
      (false, some { sampleState with client := some otherClient }, []) :=
  (hook_missing_owner_noop { sampleState with client := some otherClient }
    sampleClient 0 0 0 0 0 0 0 "").2.1 (by decide)

/-- C5 counterexample: from a state whose scaled size already equals s
with a clear scaled-dirty flag and a stale stored scaled framebuffer
(such a state is reachable: stop resets the stored scaled framebuffer
without touching the dirty flag), setScaledSize followed by
scaledFramebuffer does not return an image of size s although a valid
framebuffer exists and s is non-empty. -/
theorem scaled_size_counterexample :
    VncConnection.hasValidFramebuffer staleScaledState = true ∧
    QSize.isEmpty ⟨2, 2⟩ = false ∧
    (VncConnection.scaledFramebuffer
        (VncConnection.setScaledSize ⟨2, 2⟩ staleScaledState)).1.size ≠ (⟨2, 2⟩ : QSize) := by
  decide

/-- C5 (amended): provided the scaled-dirty flag is set or the stored
scaled size differs from s, and the framebuffer image is non-null
whenever a valid framebuffer exists, setScaledSize(s) followed by
scaledFramebuffer() returns an image of size s when a valid framebuffer
exists and s is non-empty, and an empty image when no valid framebuffer
exists or s is empty. -/
theorem scaled_size_spec (st : VncState) (s : QSize)
    (h1 : st.controlFlags.scaledFramebufferNeedsUpdate = true ∨ st.scaledSize ≠ s)
    (h2 : VncConnection.hasValidFramebuffer st = true → st.image.isNull = false) :
    (VncConnection.hasValidFramebuffer st = true ∧ s.isEmpty = false →
      (VncConnection.scaledFramebuffer (VncConnection.setScaledSize s st)).1.size = s) ∧
    ((VncConnection.hasValidFramebuffer st = false ∨ s.isEmpty = true) →
      (VncConnection.scaledFramebuffer (VncConnection.setScaledSize s st)).1.isNull = true) := by
  have hsize : (VncConnection.setScaledSize s st).scaledSize = s := by
    unfold VncConnection.setScaledSize
    split
    · simp [VncConnection.setControlFlag]
    · next heq => simpa using not_not.mp heq
  have hdirty : (VncConnection.setScaledSize s st).controlFlags.scaledFramebufferNeedsUpdate = true := by
    unfold VncConnection.setScaledSize
    split
    · simp [VncConnection.setControlFlag, ControlFlags.set]
    · next heq =>
        rcases h1 with h | h
        · exact h
        · exact absurd (not_not.mp heq) (fun hh => h hh)
  have himg : (VncConnection.setScaledSize s st).image = st.image := by
    unfold VncConnection.setScaledSize
    split <;> simp [VncConnection.setControlFlag]
  have hfb : (VncConnection.setScaledSize s st).framebufferState = st.framebufferState := by
    unfold VncConnection.setScaledSize
    split <;> simp [VncConnection.setControlFlag]
  constructor
  · rintro ⟨hv, he⟩
    have hv1 : VncConnection.hasValidFramebuffer (VncConnection.setScaledSize s st) = true := by
      unfold VncConnection.hasValidFramebuffer at hv ⊢
      rw [hfb]; exact hv
    have hpos : 0 < s.w ∧ 0 < s.h := by
      simp [QSize.isEmpty] at he
      omega
    have hnn : s.isNull = false := by
      simp [QSize.isNull]
      omega
    have hinull : st.image.isNull = false := h2 hv
    unfold VncConnection.scaledFramebuffer VncConnection.rescaleFramebuffer
    simp only [VncConnection.isControlFlagSet, ControlFlags.isSet, hv1, hsize, hnn, hdirty,
      QImage.size_isValid, himg]
    simp [VncConnection.setControlFlag, QImage.scaled, he, hinull, QImage.size]
    rw [max_eq_left hpos.1.le, max_eq_left hpos.2.le]
  · intro hcase
    by_cases hv : VncConnection.hasValidFramebuffer st = true
    · have he : s.isEmpty = true := by
        rcases hcase with h | h
        · exact absurd hv (by simp [h])
        · exact h
      have hv1 : VncConnection.hasValidFramebuffer (VncConnection.setScaledSize s st) = true := by
        unfold VncConnection.hasValidFramebuffer at hv ⊢
        rw [hfb]; exact hv
      unfold VncConnection.scaledFramebuffer VncConnection.rescaleFramebuffer
      by_cases hnn : s.isNull = true
      · simp [hv1, hsize, hnn, QImage.isNull]
      · simp only [VncConnection.isControlFlagSet, ControlFlags.isSet, hv1, hsize,
          eq_self_iff_true, hdirty, QImage.size_isValid, himg]
        simp [hnn, VncConnection.setControlFlag, QImage.scaled, he, QImage.isNull]
    · have hv1 : VncConnection.hasValidFramebuffer (VncConnection.setScaledSize s st) = false := by
        unfold VncConnection.hasValidFramebuffer at hv ⊢
        rw [hfb]
        simpa using hv
      unfold VncConnection.scaledFramebuffer VncConnection.rescaleFramebuffer
      simp [hv1, QImage.isNull]

/-- Witness for the amended C5 theorem at a concrete state. -/
theorem scaled_size_spec_witness :
    (VncConnection.scaledFramebuffer
        (VncConnection.setScaledSize ⟨2, 2⟩ validFbSampleState)).1.size = (⟨2, 2⟩ : QSize) :=
  (scaled_size_spec validFbSampleState ⟨2, 2⟩
    (Or.inr (by decide)) (by decide)).1 ⟨by decide, by decide⟩

/-- Firing queued events never produces a framebuffer update request. -/
theorem filter_fired_nil (l : List VncEvent) :
    (l.map VncConnection.PumpAction.firedEvent).filter VncConnection.isUpdateRequestAction = [] := by
  induction l with
  | nil => rfl
  | cons a t ih => simp [VncConnection.isUpdateRequestAction, ih]

/-- C6: in every pump iteration with no inbound message pending, no
terminate request, and the watchdog elapsed at least the maximum of twice
the update interval and the watchdog timeout, the driver issues exactly
one full (non-incremental) framebuffer update request covering the whole
surface and restarts the watchdog; no incremental request is sent, so the
branch takes priority over the incremental-update and trigger-flag
branches. -/
theorem watchdog_full_update (st : VncState) (cl : RfbClient)
    (handledOkay : Bool) (loopElapsed : Int)
    (hterm : st.controlFlags.terminateThread = false)
    (helapsed : st.watchdogElapsed ≥
      max (2 * st.framebufferUpdateInterval) st.framebufferUpdateWatchdogTimeout) :
    ((VncConnection.handleConnectionIteration st cl 0 handledOkay loopElapsed).2.1.filter
        VncConnection.isUpdateRequestAction =
      [VncConnection.PumpAction.framebufferUpdateRequest 0 0 cl.width cl.height false]) ∧
    (VncConnection.handleConnectionIteration st cl 0 handledOkay loopElapsed).1.watchdogElapsed
      = 0 := by
  unfold VncConnection.handleConnectionIteration
  simp only [VncConnection.isControlFlagSet, ControlFlags.isSet, hterm]
  rw [if_neg (by simp), if_neg (by simp), if_pos helapsed]
  unfold VncConnection.finishIteration VncConnection.sendEvents
  constructor
  · simp [List.filter_append, filter_fired_nil, VncConnection.isUpdateRequestAction, hterm,
      apply_ite (List.filter VncConnection.isUpdateRequestAction)]
  · simp

/-- Witness for the C6 theorem at a concrete state. -/
theorem watchdog_full_update_witness :
    ((VncConnection.handleConnectionIteration watchdogExpiredState
        sampleClient 0 true 0).2.1.filter VncConnection.isUpdateRequestAction =
      [VncConnection.PumpAction.framebufferUpdateRequest 0 0
        sampleClient.width sampleClient.height false]) ∧
    (VncConnection.handleConnectionIteration watchdogExpiredState
        sampleClient 0 true 0).1.watchdogElapsed = 0 :=
  watchdog_full_update watchdogExpiredState sampleClient true 0 rfl (by decide)

/-- C8: initFrameBuffer fails exactly when the server pixel depth is not
the expected 32 bits, in which case it changes nothing and emits no
signal; on success (under the RFB bound of 16-bit framebuffer dimensions)
it allocates a zeroed pixel array of width times height pixels, programs
the pixel format to R/G/B maxima 255 at shifts 16/8/0, wraps the array in
the framebuffer image, marks the framebuffer state Initialized and emits
the size-changed signal with the new dimensions. -/
theorem init_framebuffer_spec (st : VncState) (cl : RfbClient) :
    ((VncConnection.initFrameBuffer st cl).1 = true ↔ cl.format.bitsPerPixel = 32) ∧
    (cl.format.bitsPerPixel ≠ 32 → VncConnection.initFrameBuffer st cl = (false, st, [])) ∧
    (cl.format.bitsPerPixel = 32 → cl.width < 65536 → cl.height < 65536 →
      ∃ cl2 : RfbClient,
        VncConnection.initFrameBuffer st cl =
          (true,
            { st with
              image := QImage.fromFramebuffer cl.width cl.height
              client := some cl2
              framebufferState := FramebufferState.Initialized },
            [VncSignal.framebufferSizeChanged cl.width cl.height]) ∧
        cl2.frameBuffer = List.replicate (cl.width * cl.height) 0 ∧
        cl2.format.redShift = 16 ∧ cl2.format.greenShift = 8 ∧ cl2.format.blueShift = 0 ∧
        cl2.format.redMax = 255 ∧ cl2.format.greenMax = 255 ∧ cl2.format.blueMax = 255) := by
  refine ⟨?_, fun hb => ?_, fun hb hw hh => ?_⟩
  · by_cases hb : cl.format.bitsPerPixel = 32 <;>
      simp [VncConnection.initFrameBuffer, RfbBitsPerSample, RfbBytesPerPixel, hb]
  · simp [VncConnection.initFrameBuffer, RfbBitsPerSample, RfbBytesPerPixel, hb]
  · have hlt : cl.width * cl.height < 2 ^ 32 := by
      have h1 : cl.width * cl.height ≤ 65535 * 65535 :=
        Nat.mul_le_mul (Nat.le_of_lt_succ hw) (Nat.le_of_lt_succ hh)
      omega
    have hmod : cl.width * cl.height % 2 ^ 32 = cl.width * cl.height := Nat.mod_eq_of_lt hlt
    simp only [VncConnection.initFrameBuffer, RfbBitsPerSample, RfbBytesPerPixel, hb, hmod]
    refine ⟨_, rfl, rfl, rfl, rfl, rfl, rfl, rfl, rfl⟩

/-- Witness for the C8 theorem: concrete success and failure instances. -/
theorem init_framebuffer_spec_witness :
    (VncConnection.initFrameBuffer sampleState sampleClient).2.1.framebufferState =
      FramebufferState.Initialized ∧
    VncConnection.initFrameBuffer sampleState badDepthClient = (false, sampleState, []) := by
  constructor
  · obtain ⟨cl2, heq, -⟩ := (init_framebuffer_spec sampleState sampleClient).2.2
      rfl (by decide) (by decide)
    rw [heq]
  · exact (init_framebuffer_spec sampleState badDepthClient).2.1 (by decide)

/-- C9: enqueueEvent silently drops the event outside the Connected
state, leaving the whole state unchanged, so the mouse, key and
client-cut operations are no-ops outside Connected and the refresh event
enqueued by the quality and remote-cursor setters leaves the queue
unchanged; events are appended to the queue exactly when the state is
Connected. -/
theorem enqueue_only_when_connected (st : VncState) (e : VncEvent) (x y mask : Int)
    (key : Nat) (pressed : Bool) (text : String) (q : Quality) (b : Bool) :
    (st.state ≠ State.Connected →
      VncConnection.enqueueEvent e st = st ∧
      VncConnection.mouseEvent x y mask st = st ∧
      VncConnection.keyEvent key pressed st = st ∧
      VncConnection.clientCut text st = st ∧
      (VncConnection.setQuality q st).eventQueue = st.eventQueue ∧
      (VncConnection.setUseRemoteCursor b st).eventQueue = st.eventQueue) ∧
    ((VncConnection.enqueueEvent e st).eventQueue =
      if st.state = State.Connected then st.eventQueue ++ [e] else st.eventQueue) := by
  constructor
  · intro hns
    have henq : ∀ (ev : VncEvent) (s1 : VncState), s1.state ≠ State.Connected →
        VncConnection.enqueueEvent ev s1 = s1 := by
      intro ev s1 h
      simp [VncConnection.enqueueEvent, h]
    refine ⟨henq e st hns, henq _ st hns, henq _ st hns, henq _ st hns, ?_, ?_⟩
    · cases hcl : st.client with
      | none => simp [VncConnection.setQuality, hcl]
      | some cl => simp [VncConnection.setQuality, hcl, VncConnection.enqueueEvent, hns]
    · cases hcl : st.client with
      | none => simp [VncConnection.setUseRemoteCursor, hcl]
      | some cl => simp [VncConnection.setUseRemoteCursor, hcl, VncConnection.enqueueEvent, hns]
  · unfold VncConnection.enqueueEvent
    by_cases hc : st.state = State.Connected <;> simp [hc]

/-- Witness for the C9 theorem at a concrete disconnected state. -/
theorem enqueue_only_when_connected_witness :
    VncConnection.mouseEvent 3 4 1 sampleState = sampleState :=
  ((enqueue_only_when_connected sampleState VncEvent.updateFormatAndEncodingsEvent
      3 4 1 65 true "x" Quality.Low false).1 (by decide)).2.1

/-- C10: setFramebufferUpdateInterval stores the interval and wakes the
sleeper; when the interval is non-positive it additionally sets the
TriggerFramebufferUpdate control flag, and when it is positive the
control flags are untouched. -/
theorem set_update_interval_spec (st : VncState) (i : Int) :
    (VncConnection.setFramebufferUpdateInterval i st).framebufferUpdateInterval = i ∧
    (VncConnection.setFramebufferUpdateInterval i st).wakeCount = st.wakeCount + 1 ∧
    (i ≤ 0 → (VncConnection.setFramebufferUpdateInterval i st).controlFlags =
      { st.controlFlags with triggerFramebufferUpdate := true }) ∧
    (0 < i → (VncConnection.setFramebufferUpdateInterval i st).controlFlags =
      st.controlFlags) := by
  unfold VncConnection.setFramebufferUpdateInterval
  by_cases hi : i ≤ 0
  · simp [hi, VncConnection.setControlFlag, ControlFlags.set]
  · simp [hi, VncConnection.setControlFlag, ControlFlags.set]

/-- Witness for the C10 theorem at concrete intervals 0 and 5. -/
theorem set_update_interval_spec_witness :
    (VncConnection.setFramebufferUpdateInterval 0 sampleState).controlFlags =
      { sampleState.controlFlags with triggerFramebufferUpdate := true } ∧
    (VncConnection.setFramebufferUpdateInterval 5 sampleState).controlFlags =
      sampleState.controlFlags :=
  ⟨(set_update_interval_spec sampleState 0).2.2.1 (by decide),
   (set_update_interval_spec sampleState 5).2.2.2 (by decide)⟩

end Veyon
